import Mathlib

/-!
Shallow embedding of the chat2act bounded-latency conversational
orchestration engine, and proofs about it.

Each definition is a direct translation of one function of the source
repository; the comment above each names the source file and lines.
JavaScript conventions used throughout the embedding:
  * machine time (`Date.now()`, stored timestamps) is an `Int` in
    milliseconds, so ages computed by subtraction can be negative,
    exactly as in JS number arithmetic;
  * a JS field that may be `undefined`/`null` (or is tested for
    truthiness, where the empty string also fails the test) is an
    `Option`; a missing key and an empty-string value are both `none`;
  * JS objects used as string maps are association lists;
  * every external call (MongoDB reads and writes, Redis, axios, the
    reasoning model) is a suspension point; its outcome enters the model
    as an explicit argument (an oracle), so a definition is a function of
    the conversation state plus the outcomes of the external calls it
    performs, in program order.
-/

namespace Chat2Act

namespace Conversation

/-- One entry of the bounded message history
(src/backend/models/Conversation.js, messageSchema, lines 134-148). -/
structure Message where
  role : String
  text : String
  timestamp : Int
  deriving Repr, DecidableEq

/-- src/backend/models/Conversation.js lines 240-250, method `addMessage`:
push the new message, then `if (this.messages.length > 10)
this.messages = this.messages.slice(-10)` — keep only the last 10. -/
def addMessage (messages : List Message) (role text : String) (now : Int) :
    List Message :=
  let pushed := messages ++ [⟨role, text, now⟩]
  if pushed.length > 10 then pushed.drop (pushed.length - 10) else pushed

/-- The cached background-pipeline result
(src/backend/models/Conversation.js, field `lastPendingResult`,
lines 216-220): text, timestamp, consumed flag. -/
structure PendingResult where
  text : String
  timestamp : Int
  consumed : Bool
  deriving Repr, DecidableEq

/-- src/backend/models/Conversation.js lines 283-301, method
`consumePendingResult`: return `null` when there is no pending result,
when it is already consumed, or when its age exceeds 5 minutes;
otherwise mark it consumed, save, and return its text.  The first
component is the returned value, the second the stored record after the
call (the `this.save()` state). -/
def consumePendingResult (lastPendingResult : Option PendingResult)
    (now : Int) : Option String × Option PendingResult :=
  match lastPendingResult with
  | none => (none, none)
  | some pr =>
    if pr.consumed then (none, some pr)
    else
      let age := now - pr.timestamp
      if age > 5 * 60 * 1000 then (none, some pr)
      else (some pr.text, some { pr with consumed := true })

/-- The slice of the conversation record read and written by the webhook
handler of src/backend/controllers/orgController.js: the pending reply
override (schema lines 229-232) and the handles needed for a proactive
push (lines 158-162 and 222-226). -/
structure ConvRec where
  pendingReplyText : Option String
  activeConversationId : Option String
  screenName : Option String
  deriving Repr, DecidableEq

end Conversation

/-- Claim C8: for every conversation and every sequence of addMessage
operations, the message history length never exceeds 10, and when an
11th message is appended the oldest entry is the one evicted (FIFO
order preserved). -/
theorem claim_C8_history_bounded_fifo :
    (∀ ops : List (String × String × Int),
      (ops.foldl
        (fun acc op => Conversation.addMessage acc op.1 op.2.1 op.2.2)
        []).length ≤ 10) ∧
    (∀ (msgs : List Conversation.Message) (role text : String) (now : Int),
      msgs.length = 10 →
      Conversation.addMessage msgs role text now =
        msgs.drop 1 ++ [⟨role, text, now⟩]) := by
  constructor
  · intro ops
    have key : ∀ (msgs : List Conversation.Message) (r t : String) (n : Int),
        (Conversation.addMessage msgs r t n).length ≤ 10 := by
      intro msgs r t n
      unfold Conversation.addMessage
      by_cases h : (msgs ++ [(⟨r, t, n⟩ : Conversation.Message)]).length > 10
      · simp only [h, if_pos, List.length_drop]
        omega
      · simp only [h, if_neg, if_false]
        omega
    have gen : ∀ (l : List (String × String × Int))
        (acc : List Conversation.Message), acc.length ≤ 10 →
        (l.foldl
          (fun acc op => Conversation.addMessage acc op.1 op.2.1 op.2.2)
          acc).length ≤ 10 := by
      intro l
      induction l with
      | nil => intro acc h; simpa using h
      | cons a rest ih =>
        intro acc _
        simpa using ih (Conversation.addMessage acc a.1 a.2.1 a.2.2)
          (key acc a.1 a.2.1 a.2.2)
    simpa using gen ops [] (by simp)
  · intro msgs role text now h
    unfold Conversation.addMessage
    have hlen : (msgs ++ [(⟨role, text, now⟩ : Conversation.Message)]).length
        = 11 := by simp [h]
    rw [if_pos (by omega), hlen,
      List.drop_append_of_le_length (by omega)]

/-- Claim C8 witness: a history of 10 messages receives an 11th and the
oldest entry is evicted. -/
theorem claim_C8_history_bounded_fifo_witness :
    Conversation.addMessage
      ((List.range 10).map (fun i => ⟨("user"), toString i, (i : Int)⟩))
      ("bot") ("newest") 99 =
      ((List.range 10).map
        (fun i => ⟨("user"), toString i, (i : Int)⟩)).drop 1 ++
        [⟨("bot"), ("newest"), 99⟩] :=
  claim_C8_history_bounded_fifo.2 _ ("bot") ("newest") 99 (by decide)

/-- Claim C2: a stored pending result is delivered (returned and marked
consumed) only if it is unconsumed and at most 5 minutes old; a pending
result older than 5 minutes is never delivered, even if unconsumed. -/
theorem claim_C2_pending_result_freshness
    (pr : Conversation.PendingResult) (now : Int) :
    (now - pr.timestamp > 5 * 60 * 1000 →
      (Conversation.consumePendingResult (some pr) now).1 = none) ∧
    ((Conversation.consumePendingResult (some pr) now).1.isSome →
      pr.consumed = false ∧ now - pr.timestamp ≤ 5 * 60 * 1000 ∧
      Conversation.consumePendingResult (some pr) now =
        (some pr.text, some { pr with consumed := true })) := by
  constructor
  · intro hage
    simp only [Conversation.consumePendingResult]
    split_ifs with h1
    · rfl
    · rfl
  · intro hdeliv
    simp only [Conversation.consumePendingResult] at hdeliv ⊢
    split_ifs at hdeliv ⊢ with h1 h2
    · simp at hdeliv
    · simp at hdeliv
    · exact ⟨by simpa using h1, by omega, rfl⟩

/-- Claim C2 witness: a 4-minute-old unconsumed pending result is
delivered and marked consumed; evaluating the same method on a
6-minute-old record returns nothing. -/
theorem claim_C2_pending_result_freshness_witness :
    (Conversation.consumePendingResult
        (some ⟨("your order shipped"), 0, false⟩) 240000).1.isSome ∧
    Conversation.consumePendingResult
        (some ⟨("your order shipped"), 0, false⟩) 240000 =
      (some ("your order shipped"),
        some ⟨("your order shipped"), 0, true⟩) ∧
    (Conversation.consumePendingResult
        (some ⟨("your order shipped"), 0, false⟩) 360000).1 = none := by
  refine ⟨by decide, ?_, ?_⟩
  · exact ((claim_C2_pending_result_freshness
      ⟨("your order shipped"), 0, false⟩ 240000).2 (by decide)).2.2
  · exact (claim_C2_pending_result_freshness
      ⟨("your order shipped"), 0, false⟩ 360000).1 (by decide)

namespace ChatbotController

/-- The contents of `this.processedRequests` together with the pending
`setTimeout` deletion timers (src/backend/controllers/orgController.js
lines 81, 110-113): each tracked request id is paired with the absolute
time, in ms, at which its deletion timer fires (add time + 60000). -/
def RequestSet := List (String × Nat)

/-- Membership test `this.processedRequests.has(requestId)` at time
`now`, accounting for the deletion timers that have already fired
(an entry added at `t` is deleted at `t + 60000`). -/
def seenRequest (s : RequestSet) (rid : String) (now : Nat) : Bool :=
  s.any (fun e => e.1 == rid && decide (now < e.2))

/-- What the deduplication guard of the webhook handler decided
(src/backend/controllers/orgController.js lines 101-113). -/
inductive DedupResult
  /-- `return res.status(200).json({})`: the duplicate event is dropped
  with an empty 200 acknowledgement; none of the code that follows (in
  particular no pipeline start) runs on this turn. -/
  | droppedAck (status : Nat)
  /-- The guard fell through; event handling continues. -/
  | proceed
  deriving Repr, DecidableEq

/-- src/backend/controllers/orgController.js lines 101-113: if the
request id has been seen and its 60-second timer has not yet fired, the
event is dropped with an empty 200 response before any further handling;
otherwise the id is recorded and a deletion timer of 60000 ms is set.
Timers that already fired are dropped from the stored state. -/
def dedupIngress (s : RequestSet) (requestId : Option String) (now : Nat) :
    DedupResult × RequestSet :=
  match requestId with
  | none => (.proceed, s.filter (fun e => decide (now < e.2)))
  | some rid =>
    if seenRequest s rid now then
      (.droppedAck 200, s.filter (fun e => decide (now < e.2)))
    else
      (.proceed, (rid, now + 60000) :: s.filter (fun e => decide (now < e.2)))

/-- src/backend/controllers/orgController.js lines 204-218: on a
`message` event the handler first loads the conversation and, when
`pendingReplyText` is non-null, returns exactly that text after setting
the field to `null` and saving.  First component: the reply returned
from this check (none means the check fell through to the pipeline);
second component: the saved conversation record. -/
def pendingReplyCheck (conversation : Option Conversation.ConvRec) :
    Option String × Option Conversation.ConvRec :=
  match conversation with
  | some conv =>
    match conv.pendingReplyText with
    | some t => (some t, some { conv with pendingReplyText := none })
    | none => (none, some conv)
  | none => (none, none)

/-- The fixed interim text returned when the 4-second timer wins the
race (src/backend/controllers/orgController.js line 297). -/
def interimMessage : String := "I\x27m working on it, give me a moment..."

/-- The `finally` block of the message turn
(src/backend/controllers/orgController.js lines 314-322):
`if (!this.processingLock.has(key)) {} else {this.processingLock.delete(key)}`.
Input: whether the lock entry is present; output: (lock state after the
block, whether this path executed the delete). -/
def syncFinallyRelease (lockHeld : Bool) : Bool × Bool :=
  if lockHeld then (false, true) else (lockHeld, false)

/-- The `.finally` of the background continuation
(src/backend/controllers/orgController.js lines 292-295):
`this.processingLock.delete(key)`, unconditionally. -/
def backgroundFinallyRelease (_lockHeld : Bool) : Bool × Bool :=
  (false, true)

/-- Observable lock behaviour of one `message` turn for its
(org, visitor) key. -/
structure TurnLockTrace where
  /-- Text of the `res.json({replies: [{text: ...}]})` response. -/
  response : String
  /-- The `finally` block of the handler performed `processingLock.delete`. -/
  syncReleaseFired : Bool
  /-- A background continuation was attached to the pipeline promise. -/
  backgroundAttached : Bool
  /-- Lock state at the moment the background continuation body starts. -/
  lockHeldAtBackgroundStart : Bool
  /-- The background `.finally` performed `processingLock.delete`. -/
  backgroundReleaseFired : Bool
  /-- Lock state after the synchronous part of the turn (response sent,
  `finally` block done). -/
  lockAfterTurn : Bool
  /-- Lock state after the background continuation (if any) finished. -/
  lockFinal : Bool
  deriving Repr, DecidableEq

/-- src/backend/controllers/orgController.js lines 232-322, the lock
lifecycle of one `message` turn that got past the pending-reply and
contention checks.  `timeoutWins` records which promise won
`Promise.race([pipelinePromise, timeoutPromise])`.  Execution order
follows the JS event loop: after the race resolves, the current
continuation of the handler — attaching the background continuation (timeout
branch only), `res.json`, and the `finally` block of the `try` — runs to
completion synchronously; the background continuation attached to the
still-pending pipeline promise can only run after that, once the
pipeline settles. -/
def runMessageTurn (timeoutWins : Bool) (pipelineResult : String) :
    TurnLockTrace :=
  -- line 232: this.processingLock.set(conversationKey, true)
  let lock0 := true
  if timeoutWins then
    -- lines 255-303: attach background continuation, respond interim,
    -- then the finally block (lines 314-322) runs
    let s := syncFinallyRelease lock0
    -- later, the pipeline settles and the background continuation
    -- (lines 260-295) runs against the lock state s.1
    let b := backgroundFinallyRelease s.1
    { response := interimMessage
      syncReleaseFired := s.2
      backgroundAttached := true
      lockHeldAtBackgroundStart := s.1
      backgroundReleaseFired := b.2
      lockAfterTurn := s.1
      lockFinal := b.1 }
  else
    -- lines 304-313: respond with the pipeline result, then the
    -- finally block runs; no background continuation was attached
    let s := syncFinallyRelease lock0
    { response := pipelineResult
      syncReleaseFired := s.2
      backgroundAttached := false
      lockHeldAtBackgroundStart := false
      backgroundReleaseFired := false
      lockAfterTurn := s.1
      lockFinal := s.1 }

/-- The apology of the `catch` block of the webhook handler
(src/backend/controllers/orgController.js line 338). -/
def apologyReply : String := "Sorry, something went wrong. Please try again."

/-- src/backend/controllers/orgController.js lines 89-341: the whole
webhook handler body sits in one `try`/`catch`.  `turnBody` is the
outcome of the `try` body — either a normal `(status, reply text)`
response or a raised internal error — and the `catch` block (lines
332-340) maps any raised error to `res.status(500).json({replies:
[{text: apology}]})`. -/
def handleWebhookResponse (turnBody : Except String (Nat × String)) :
    Nat × String :=
  match turnBody with
  | .ok r => r
  | .error _ => (500, apologyReply)

end ChatbotController

/-- Claim C1 (where the code diverges from it): on a `message` turn
whose pipeline exceeds the 4-second deadline (the timer wins the race),
the handler does return the fixed interim text, but the per-conversation
lock does NOT remain held until the background continuation finishes:
the `finally` block of the handler still finds the lock entry present — the
background continuation cannot have run yet — and deletes it, so the
synchronous release path fires immediately after the interim response,
the background continuation starts with the lock already free, and the
background `.finally` then executes a second (now vacuous) delete.
Both release paths fire, contradicting the claimed
exactly-one-release-path discipline and the claimed lock retention. -/
theorem claim_C1_timeout_turn_releases_lock_early (pipelineResult : String) :
    ChatbotController.runMessageTurn true pipelineResult =
      { response := ChatbotController.interimMessage
        syncReleaseFired := true
        backgroundAttached := true
        lockHeldAtBackgroundStart := false
        backgroundReleaseFired := true
        lockAfterTurn := false
        lockFinal := false } := rfl

/-- Claim C3 (where the code diverges from it): the `catch` block of the
webhook handler does return a structured conversational apology for an
internal error — but with HTTP status 500, not a 200-style status. -/
theorem claim_C3_internal_error_returns_500 :
    ChatbotController.handleWebhookResponse
        (Except.error ("database unavailable")) =
      (500, ChatbotController.apologyReply) ∧ (500 : Nat) ≠ 200 := by
  exact ⟨rfl, by decide⟩

/-- Claim C3 as amended: for every inbound webhook event, including ones
whose handling raises an internal error, the handler returns a
structured response with a conversational reply and never propagates the
fault; on internal error, however, the response carries HTTP status 500
(with the fixed apology text) rather than a 200-style status. -/
theorem claim_C3_amended_every_fault_degrades_to_reply :
    (∀ e : String,
      ChatbotController.handleWebhookResponse (Except.error e) =
        (500, ChatbotController.apologyReply)) ∧
    (∀ r : Nat × String,
      ChatbotController.handleWebhookResponse (Except.ok r) = r) :=
  ⟨fun _ => rfl, fun _ => rfl⟩

/-- Claim C7: a request id resubmitted within 60 seconds of its first
submission is dropped by the deduplication guard: the handler returns
the empty 200 acknowledgement before any of the turn-handling code (in
particular before any pipeline start), while the first submission
proceeded normally. -/
theorem claim_C7_duplicate_within_60s_dropped
    (s0 : ChatbotController.RequestSet) (rid : String) (t0 t1 : Nat)
    (hfresh : ChatbotController.seenRequest s0 rid t0 = false)
    (_horder : t0 ≤ t1) (hwithin : t1 < t0 + 60000) :
    (ChatbotController.dedupIngress s0 (some rid) t0).1 =
      ChatbotController.DedupResult.proceed ∧
    (ChatbotController.dedupIngress
        (ChatbotController.dedupIngress s0 (some rid) t0).2
        (some rid) t1).1 =
      ChatbotController.DedupResult.droppedAck 200 := by
  have hstep1 : ChatbotController.dedupIngress s0 (some rid) t0 =
      (.proceed, (rid, t0 + 60000) ::
        s0.filter (fun e => decide (t0 < e.2))) := by
    simp [ChatbotController.dedupIngress, hfresh]
  refine ⟨by rw [hstep1], ?_⟩
  rw [hstep1]
  have hseen : ChatbotController.seenRequest
      ((rid, t0 + 60000) :: s0.filter (fun e => decide (t0 < e.2)))
      rid t1 = true := by
    simp [ChatbotController.seenRequest]
    exact Or.inl hwithin
  simp [ChatbotController.dedupIngress, hseen]

/-- Claim C7 witness: id r-42 submitted at t=0 proceeds; the same id
submitted again at t=59999 ms is dropped with the empty 200 ack. -/
theorem claim_C7_duplicate_within_60s_dropped_witness :
    (ChatbotController.dedupIngress [] (some ("r-42")) 0).1 =
      ChatbotController.DedupResult.proceed ∧
    (ChatbotController.dedupIngress
        (ChatbotController.dedupIngress [] (some ("r-42")) 0).2
        (some ("r-42")) 59999).1 =
      ChatbotController.DedupResult.droppedAck 200 :=
  claim_C7_duplicate_within_60s_dropped [] ("r-42") 0 59999
    (by decide) (by decide) (by decide)

/-- Claim C10: a `message` turn that finds a non-null pendingReplyText
returns exactly that text and clears the field before responding, and a
repeat of the check on the saved record no longer delivers anything, so
the stored fallback text is delivered at most once. -/
theorem claim_C10_pending_reply_delivered_once
    (conv : Conversation.ConvRec) (t : String)
    (hpending : conv.pendingReplyText = some t) :
    ChatbotController.pendingReplyCheck (some conv) =
      (some t, some { conv with pendingReplyText := none }) ∧
    (ChatbotController.pendingReplyCheck
      (ChatbotController.pendingReplyCheck (some conv)).2).1 = none := by
  constructor
  · simp [ChatbotController.pendingReplyCheck, hpending]
  · simp [ChatbotController.pendingReplyCheck, hpending]

/-- Claim C10 witness: a conversation holding the fallback text delivers
it once with the field cleared, and a second check delivers nothing. -/
theorem claim_C10_pending_reply_delivered_once_witness :
    ChatbotController.pendingReplyCheck
        (some ⟨some ("here is your result"), none, none⟩) =
      (some ("here is your result"), some ⟨none, none, none⟩) ∧
    (ChatbotController.pendingReplyCheck
      (ChatbotController.pendingReplyCheck
        (some ⟨some ("here is your result"), none, none⟩)).2).1 = none :=
  claim_C10_pending_reply_delivered_once
    ⟨some ("here is your result"), none, none⟩ ("here is your result") rfl

namespace ApiExecutor

/-- Abstract JSON payload of an API response, with just the shape
distinctions the source inspects (formatApiResponse checks for null,
array, other object, and primitive). -/
inductive JsonData
  | null
  | str (s : String)
  | num (n : Int)
  | obj
  | arr (n : Nat)
  deriving Repr, DecidableEq

/-- One declared endpoint parameter (name, OpenAPI location, required
flag), as stored in ApiIndex endpoint specs. -/
structure EndpointParam where
  name : String
  /-- The `in` field of the parameter spec: path / query / header. -/
  paramIn : String
  required : Bool
  deriving Repr, DecidableEq

/-- One endpoint record of an ApiIndex document, restricted to the
fields src/unnamed/part_013 reads. -/
structure EndpointSpec where
  endpointId : String
  method : String
  path : String
  parameters : List EndpointParam
  /-- Whether `endpoint.requestBody && endpoint.requestBody.schema` is
  truthy (src/unnamed/part_013 line 204). -/
  hasRequestBodySchema : Bool
  deriving Repr, DecidableEq

/-- The axios request config built by `buildRequest`
(src/unnamed/part_013 lines 220-226): fields method, url, params,
headers, data — and no `timeout` key, so `timeout := none` always. -/
structure RequestConfig where
  method : String
  url : String
  params : List (String × String)
  headers : List (String × String)
  data : Option (List (String × String))
  timeout : Option Nat
  deriving Repr, DecidableEq

/-- JS truthy lookup `parameters[param.name]` on the parameters object:
present and not the empty string. -/
def truthyLookup (parameters : List (String × String)) (k : String) :
    Option String :=
  match parameters.lookup k with
  | some v => if v = ("") then none else some v
  | none => none

/-- src/unnamed/part_013 lines 161-227, `buildRequest`: substitute path
parameters into the URL, collect query and header parameters, attach the
Bearer token, and for write methods put every parameter not declared as
path/query/header into the body.  No timeout is configured on the
request. -/
def buildRequest (endpoint : EndpointSpec)
    (parameters : List (String × String)) (token : String)
    (baseUrl : String) : RequestConfig :=
  let url0 := baseUrl ++ endpoint.path
  let url := endpoint.parameters.foldl
    (fun u p =>
      if p.paramIn == ("path") then
        match truthyLookup parameters p.name with
        | some v => u.replace ("\x7b" ++ p.name ++ "\x7d") v
        | none => u
      else u) url0
  let queryParams := endpoint.parameters.filterMap
    (fun p =>
      if p.paramIn == ("query") then
        (truthyLookup parameters p.name).map (fun v => (p.name, v))
      else none)
  let headers := [(("Authorization"), ("Bearer ") ++ token),
      (("Content-Type"), ("application/json"))] ++
    endpoint.parameters.filterMap
      (fun p =>
        if p.paramIn == ("header") then
          (truthyLookup parameters p.name).map (fun v => (p.name, v))
        else none)
  let data :=
    if [("POST"), ("PUT"), ("PATCH")].contains endpoint.method.toUpper then
      some (if endpoint.hasRequestBodySchema then
        parameters.filter (fun kv =>
          ¬ endpoint.parameters.any (fun p =>
            (p.paramIn == ("path") || p.paramIn == ("query") ||
              p.paramIn == ("header")) && p.name == kv.1))
      else [])
    else none
  { method := endpoint.method.toUpper
    url := url
    params := queryParams
    headers := headers
    data := data
    timeout := none }

/-- The tenant credential record
(src/backend/models/Organization.js lines 24-59). -/
structure OAuthCredentials where
  accessToken : Option String
  refreshToken : Option String
  expiresAt : Option Int
  scope : Option String
  tokenRefreshUrl : Option String
  clientId : Option String
  clientSecret : Option String
  deriving Repr, DecidableEq

/-- The response body of the token-refresh endpoint
(src/unnamed/part_013 lines 135-150, `response.data`). -/
structure TokenData where
  access_token : String
  refresh_token : Option String
  /-- Lifetime in seconds; `0` is falsy in JS and keeps the old expiry. -/
  expires_in : Option Int
  scope : Option String
  deriving Repr, DecidableEq

/-- The Organization document restricted to the fields the executor
reads (src/backend/models/Organization.js). -/
structure Organization where
  orgId : String
  oauthCredentials : Option OAuthCredentials
  apiBaseUrl : Option String
  deriving Repr, DecidableEq

/-- src/backend/models/Organization.js lines 92-102, `isTokenValid`:
false without an access token; valid when no expiry is set; otherwise
valid iff the current time is strictly before the expiry. -/
def isTokenValid (org : Organization) (now : Int) : Bool :=
  match org.oauthCredentials with
  | none => false
  | some c =>
    match c.accessToken with
    | none => false
    | some _ =>
      match c.expiresAt with
      | none => true
      | some exp => decide (now < exp)

/-- src/backend/models/Organization.js lines 105-117, `updateOAuthToken`
followed by `save`: install the new access token; keep the old refresh
token, expiry or scope when the response omits them (JS `||` /
ternary-on-truthy, so `expires_in: 0` also keeps the old expiry). -/
def updateOAuthToken (c : OAuthCredentials) (tokenData : TokenData)
    (now : Int) : OAuthCredentials :=
  { c with
    accessToken := some tokenData.access_token
    refreshToken :=
      match tokenData.refresh_token with
      | some r => some r
      | none => c.refreshToken
    expiresAt :=
      match tokenData.expires_in with
      | some e => if e = 0 then c.expiresAt else some (now + e * 1000)
      | none => c.expiresAt
    scope :=
      match tokenData.scope with
      | some s => some s
      | none => c.scope }

/-- An error raised inside `executeApiCall`, in the three shapes its
`catch` block distinguishes (src/unnamed/part_013 lines 53-84). -/
inductive ExecError
  /-- A plain `new Error(msg)` thrown by a pre-call step or by the
  refresh helper; carries no `response`. -/
  | thrown (msg : String)
  /-- An axios error with `error.response` set: the API answered with a
  non-2xx status. -/
  | httpResponse (status : Nat)
  /-- An axios transport error (no response received). -/
  | transport (msg : String)
  deriving Repr, DecidableEq

/-- Outcome of one `await axios(request)` (the oracle for the outbound
transport). -/
inductive AxiosOutcome
  | ok (status : Nat) (data : JsonData)
  | httpError (status : Nat)
  | transportError (msg : String)
  deriving Repr, DecidableEq

/-- The value `executeApiCall` resolves with
(src/unnamed/part_013 lines 46-51 and 57-84). -/
inductive ExecOutcome
  | success (status : Nat) (data : JsonData) (endpoint : String)
  | failure (error : String) (message : String)
  deriving Repr, DecidableEq

/-- JS `error.message.includes("OAuth")`. -/
def includesOAuth (msg : String) : Bool :=
  decide ((msg.splitOn ("OAuth")).length ≥ 2)

/-- src/unnamed/part_013 lines 53-84, the `catch` block of
`executeApiCall`: a response-bearing error is an upstream API error, a
message mentioning OAuth is an auth error, anything else an execution
error — each with its fixed user-facing message. -/
def classifyExecError : ExecError → ExecOutcome
  | .httpResponse _ =>
    .failure ("API_ERROR") ("Sorry, that action failed—try again shortly")
  | .thrown m =>
    if includesOAuth m then
      .failure ("AUTH_ERROR") ("Authentication failed—please contact support")
    else
      .failure ("EXECUTION_ERROR") ("Sorry, that action failed—try again shortly")
  | .transport m =>
    if includesOAuth m then
      .failure ("AUTH_ERROR") ("Authentication failed—please contact support")
    else
      .failure ("EXECUTION_ERROR") ("Sorry, that action failed—try again shortly")

/-- src/unnamed/part_013 lines 129-156, `refreshOAuthToken`: require a
stored refresh token and refresh URL, issue the refresh POST
(`refreshResp` is its outcome; `none` means the POST failed, which is
rethrown as "OAuth token refresh failed"), persist the updated
credentials via `updateOAuthToken` + save, and return the new access
token.  Second component: how many refresh POSTs were issued. -/
def refreshOAuthToken (org : Organization) (c : OAuthCredentials)
    (now : Int) (refreshResp : Option TokenData) :
    Except ExecError (String × Organization) × Nat :=
  if c.refreshToken = none ∨ c.tokenRefreshUrl = none then
    (.error (.thrown
      ("Cannot refresh token: missing refresh token or refresh URL")), 0)
  else
    match refreshResp with
    | none => (.error (.thrown ("OAuth token refresh failed")), 1)
    | some tokenData =>
      let c2 := updateOAuthToken c tokenData now
      (.ok (tokenData.access_token,
        { org with oauthCredentials := some c2 }), 1)

/-- src/unnamed/part_013 lines 104-124, `getOAuthToken`: load the
organization (`db` is the stored record), require configured
credentials, return the stored token while it is valid, otherwise
refresh synchronously.  Components: outcome, number of refresh POSTs,
and the stored organization record after the call (refresh persists
before returning). -/
def getOAuthToken (db : Option Organization) (now : Int)
    (refreshResp : Option TokenData) :
    Except ExecError (String × Organization) × Nat × Option Organization :=
  match db with
  | none => (.error (.thrown ("Organization not found")), 0, db)
  | some org =>
    match org.oauthCredentials with
    | none =>
      (.error (.thrown
        ("OAuth credentials not configured for this organization")), 0, db)
    | some c =>
      match c.accessToken with
      | none =>
        (.error (.thrown
          ("OAuth credentials not configured for this organization")), 0, db)
      | some tok =>
        if isTokenValid org now then (.ok (tok, org), 0, db)
        else
          match refreshOAuthToken org c now refreshResp with
          | (.ok (t, org2), n) => (.ok (t, org2), n, some org2)
          | (.error e, n) => (.error e, n, db)

/-- src/unnamed/part_013 lines 19-51, the `try` body of
`executeApiCall`: look up the endpoint spec, obtain a valid OAuth token
(refreshing if needed), require the API base URL of the org, build the
request and execute it once.  Components: the result or raised error,
the number of refresh POSTs, the number of outbound action-call
attempts, and the stored organization record afterwards. -/
def executeApiCallInner (endpointId : String)
    (parameters : List (String × String)) (db : Option Organization)
    (apiIndex : Option (List EndpointSpec)) (now : Int)
    (refreshResp : Option TokenData)
    (call : RequestConfig → AxiosOutcome) :
    Except ExecError (Nat × JsonData × EndpointSpec) × Nat × Nat ×
      Option Organization :=
  match apiIndex with
  | none => (.error (.thrown ("API Index not found")), 0, 0, db)
  | some endpoints =>
    match endpoints.find? (fun ep => ep.endpointId == endpointId) with
    | none =>
      (.error (.thrown (("Endpoint ") ++ endpointId ++ (" not found"))),
        0, 0, db)
    | some endpoint =>
      match getOAuthToken db now refreshResp with
      | (.error e, rc, db2) => (.error e, rc, 0, db2)
      | (.ok (token, org), rc, db2) =>
        match org.apiBaseUrl with
        | none =>
          (.error (.thrown ("Organization API base URL not configured")),
            rc, 0, db2)
        | some baseUrl =>
          match call (buildRequest endpoint parameters token baseUrl) with
          | .ok status data => (.ok (status, data, endpoint), rc, 1, db2)
          | .httpError status => (.error (.httpResponse status), rc, 1, db2)
          | .transportError m => (.error (.transport m), rc, 1, db2)

/-- src/unnamed/part_013 lines 19-86, `executeApiCall`: run the `try`
body and map any raised error through the `catch` classification.
Components: outcome, refresh POST count, outbound action-call attempt
count, stored organization record afterwards. -/
def executeApiCall (endpointId : String)
    (parameters : List (String × String)) (db : Option Organization)
    (apiIndex : Option (List EndpointSpec)) (now : Int)
    (refreshResp : Option TokenData)
    (call : RequestConfig → AxiosOutcome) :
    ExecOutcome × Nat × Nat × Option Organization :=
  match executeApiCallInner endpointId parameters db apiIndex now
      refreshResp call with
  | (.ok (status, data, endpoint), rc, ac, db2) =>
    (.success status data (endpoint.method ++ (" ") ++ endpoint.path),
      rc, ac, db2)
  | (.error e, rc, ac, db2) => (classifyExecError e, rc, ac, db2)

end ApiExecutor

/-- A sample endpoint spec used to evaluate the executor on concrete
runs. -/
def sampleEndpoint : ApiExecutor.EndpointSpec :=
  { endpointId := ("e1")
    method := ("GET")
    path := ("/orders")
    parameters := []
    hasRequestBodySchema := false }

/-- A sample tenant record with a currently-valid access token. -/
def sampleOrg : ApiExecutor.Organization :=
  { orgId := ("org1")
    oauthCredentials := some
      { accessToken := some ("tok")
        refreshToken := some ("rtok")
        expiresAt := some 999999
        scope := none
        tokenRefreshUrl := some ("https://auth.x/refresh")
        clientId := none
        clientSecret := none }
    apiBaseUrl := some ("https://api.x") }

/-- Claim C4 (where the code diverges from it), on concrete runs with a
valid token: a transient server-side failure (HTTP 503) of the outbound
call yields the upstream-error result after exactly one outbound attempt
— there is no retry; an auth failure of the call (HTTP 401) likewise
ends after one attempt with zero token refreshes — there is no
token-refresh-then-retry; and the request config built for the call
carries no transport timeout. -/
theorem claim_C4_no_timeout_no_retry_counterexample :
    ApiExecutor.executeApiCall ("e1") [] (some sampleOrg)
        (some [sampleEndpoint]) 0 none
        (fun _ => .httpError 503) =
      (.failure ("API_ERROR") ("Sorry, that action failed—try again shortly"),
        0, 1, some sampleOrg) ∧
    ApiExecutor.executeApiCall ("e1") [] (some sampleOrg)
        (some [sampleEndpoint]) 0 none
        (fun _ => .httpError 401) =
      (.failure ("API_ERROR") ("Sorry, that action failed—try again shortly"),
        0, 1, some sampleOrg) ∧
    (ApiExecutor.buildRequest sampleEndpoint [] ("tok")
        ("https://api.x")).timeout = none :=
  ⟨rfl, rfl, rfl⟩

/-- Helper: the `try` body of `executeApiCall` issues at most one
outbound action-call attempt, in every branch. -/
theorem executeApiCallInner_attempts_le_one (endpointId : String)
    (parameters : List (String × String))
    (db : Option ApiExecutor.Organization)
    (apiIndex : Option (List ApiExecutor.EndpointSpec)) (now : Int)
    (refreshResp : Option ApiExecutor.TokenData)
    (call : ApiExecutor.RequestConfig → ApiExecutor.AxiosOutcome) :
    (ApiExecutor.executeApiCallInner endpointId parameters db apiIndex now
      refreshResp call).2.2.1 ≤ 1 := by
  unfold ApiExecutor.executeApiCallInner
  (repeat' split) <;> simp

/-- Helper: the counters (refresh POSTs, outbound attempts) and the
stored organization of `executeApiCall` are those of its `try` body. -/
theorem executeApiCall_counts_eq (endpointId : String)
    (parameters : List (String × String))
    (db : Option ApiExecutor.Organization)
    (apiIndex : Option (List ApiExecutor.EndpointSpec)) (now : Int)
    (refreshResp : Option ApiExecutor.TokenData)
    (call : ApiExecutor.RequestConfig → ApiExecutor.AxiosOutcome) :
    (ApiExecutor.executeApiCall endpointId parameters db apiIndex now
      refreshResp call).2 =
    (ApiExecutor.executeApiCallInner endpointId parameters db apiIndex now
      refreshResp call).2 := by
  unfold ApiExecutor.executeApiCall
  split <;> simp_all

/-- Helper: with a valid stored token, `getOAuthToken` issues no refresh
POST. -/
theorem getOAuthToken_valid_no_refresh (org : ApiExecutor.Organization)
    (now : Int) (refreshResp : Option ApiExecutor.TokenData)
    (hvalid : ApiExecutor.isTokenValid org now = true) :
    (ApiExecutor.getOAuthToken (some org) now refreshResp).2.1 = 0 := by
  unfold ApiExecutor.getOAuthToken
  (repeat' split) <;> simp_all

/-- Helper: with a valid stored token, the `try` body issues no refresh
POST. -/
theorem executeApiCallInner_valid_token_no_refresh (endpointId : String)
    (parameters : List (String × String)) (org : ApiExecutor.Organization)
    (apiIndex : Option (List ApiExecutor.EndpointSpec)) (now : Int)
    (refreshResp : Option ApiExecutor.TokenData)
    (call : ApiExecutor.RequestConfig → ApiExecutor.AxiosOutcome)
    (hvalid : ApiExecutor.isTokenValid org now = true) :
    (ApiExecutor.executeApiCallInner endpointId parameters (some org)
      apiIndex now refreshResp call).2.1 = 0 := by
  have h0 := getOAuthToken_valid_no_refresh org now refreshResp hvalid
  unfold ApiExecutor.executeApiCallInner
  (repeat' split) <;> simp_all

/-- Helper: when every outbound attempt answers with the same non-2xx
status, the `try` body either never reaches the call (zero attempts) or
raises the corresponding HTTP response error. -/
theorem executeApiCallInner_http_error_result (endpointId : String)
    (parameters : List (String × String))
    (db : Option ApiExecutor.Organization)
    (apiIndex : Option (List ApiExecutor.EndpointSpec)) (now : Int)
    (refreshResp : Option ApiExecutor.TokenData)
    (call : ApiExecutor.RequestConfig → ApiExecutor.AxiosOutcome)
    (status : Nat)
    (hcall : ∀ req, call req = .httpError status) :
    (ApiExecutor.executeApiCallInner endpointId parameters db apiIndex now
      refreshResp call).2.2.1 = 0 ∨
    (ApiExecutor.executeApiCallInner endpointId parameters db apiIndex now
      refreshResp call).1 = .error (.httpResponse status) := by
  unfold ApiExecutor.executeApiCallInner
  (repeat' split) <;> simp_all

/-- Claim C4 as amended: the Action Executor configures no transport
timeout on the outbound request and attempts the call at most once per
execution — a non-2xx answer (transient or not) is returned directly as
the upstream-error message with no retry and no token refresh, and a
token refresh happens only before the call, when the stored token is
already expired (never zero or two refreshes follow a valid token). -/
theorem claim_C4_amended_single_attempt_no_timeout :
    (∀ endpointId parameters db apiIndex now refreshResp call,
      (ApiExecutor.executeApiCall endpointId parameters db apiIndex now
        refreshResp call).2.2.1 ≤ 1) ∧
    (∀ endpoint parameters token baseUrl,
      (ApiExecutor.buildRequest endpoint parameters token
        baseUrl).timeout = none) ∧
    (∀ endpointId parameters org apiIndex now refreshResp call,
      ApiExecutor.isTokenValid org now = true →
      (ApiExecutor.executeApiCall endpointId parameters (some org) apiIndex
        now refreshResp call).2.1 = 0) ∧
    (∀ endpointId parameters db apiIndex now refreshResp call status,
      (∀ req, call req = .httpError status) →
      (ApiExecutor.executeApiCall endpointId parameters db apiIndex now
        refreshResp call).2.2.1 = 1 →
      (ApiExecutor.executeApiCall endpointId parameters db apiIndex now
        refreshResp call).1 =
        .failure ("API_ERROR")
          ("Sorry, that action failed—try again shortly")) := by
  refine ⟨?_, ?_, ?_, ?_⟩
  · intro endpointId parameters db apiIndex now refreshResp call
    rw [executeApiCall_counts_eq]
    exact executeApiCallInner_attempts_le_one endpointId parameters db
      apiIndex now refreshResp call
  · intro endpoint parameters token baseUrl
    rfl
  · intro endpointId parameters org apiIndex now refreshResp call hvalid
    rw [executeApiCall_counts_eq]
    exact executeApiCallInner_valid_token_no_refresh endpointId parameters
      org apiIndex now refreshResp call hvalid
  · intro endpointId parameters db apiIndex now refreshResp call status
      hcall hac
    rw [executeApiCall_counts_eq] at hac
    have hres := (executeApiCallInner_http_error_result endpointId
      parameters db apiIndex now refreshResp call status hcall).resolve_left
      (by omega)
    unfold ApiExecutor.executeApiCall
    split <;> rename_i heq <;> rw [heq] at hres <;>
      simp_all [ApiExecutor.classifyExecError]

/-- Claim C4 amended witness: on the concrete valid-token run whose call
answers HTTP 503, the executor reports one attempt, zero refreshes, no
timeout on the request, and the upstream-error result. -/
theorem claim_C4_amended_single_attempt_no_timeout_witness :
    (ApiExecutor.executeApiCall ("e1") [] (some sampleOrg)
        (some [sampleEndpoint]) 0 none
        (fun _ => .httpError 503)).2.2.1 ≤ 1 ∧
    (ApiExecutor.buildRequest sampleEndpoint [] ("tok")
        ("https://api.x")).timeout = none ∧
    (ApiExecutor.executeApiCall ("e1") [] (some sampleOrg)
        (some [sampleEndpoint]) 0 none
        (fun _ => .httpError 503)).2.1 = 0 ∧
    (ApiExecutor.executeApiCall ("e1") [] (some sampleOrg)
        (some [sampleEndpoint]) 0 none
        (fun _ => .httpError 503)).1 =
      .failure ("API_ERROR")
        ("Sorry, that action failed—try again shortly") :=
  ⟨claim_C4_amended_single_attempt_no_timeout.1 ("e1") [] (some sampleOrg)
      (some [sampleEndpoint]) 0 none (fun _ => .httpError 503),
    claim_C4_amended_single_attempt_no_timeout.2.1 sampleEndpoint []
      ("tok") ("https://api.x"),
    claim_C4_amended_single_attempt_no_timeout.2.2.1 ("e1") [] sampleOrg
      (some [sampleEndpoint]) 0 none (fun _ => .httpError 503) (by decide),
    claim_C4_amended_single_attempt_no_timeout.2.2.2 ("e1") []
      (some sampleOrg) (some [sampleEndpoint]) 0 none
      (fun _ => .httpError 503) 503 (fun _ => rfl) (by decide)⟩

/-- Claim C9: with an expired access token and a stored refresh token
(and refresh URL), the executor performs exactly one refresh POST,
persists the refreshed credentials — new access token installed — before
the outbound call, and then the original call, made with the refreshed
token, succeeds; the user is never shown the re-authentication failure
message. -/
theorem claim_C9_expired_token_refresh_then_success
    (org : ApiExecutor.Organization) (c : ApiExecutor.OAuthCredentials)
    (tok rt ru : String) (exp now : Int) (td : ApiExecutor.TokenData)
    (ep : ApiExecutor.EndpointSpec) (endpointId baseUrl : String)
    (parameters : List (String × String)) (status : Nat)
    (data : ApiExecutor.JsonData)
    (call : ApiExecutor.RequestConfig → ApiExecutor.AxiosOutcome)
    (hcred : org.oauthCredentials = some c)
    (htok : c.accessToken = some tok)
    (hexp : c.expiresAt = some exp)
    (hexpired : exp ≤ now)
    (hrt : c.refreshToken = some rt)
    (hru : c.tokenRefreshUrl = some ru)
    (hep : ep.endpointId = endpointId)
    (hbase : org.apiBaseUrl = some baseUrl)
    (hcall : call (ApiExecutor.buildRequest ep parameters
        td.access_token baseUrl) = .ok status data) :
    ApiExecutor.executeApiCall endpointId parameters (some org) (some [ep])
        now (some td) call =
      (.success status data (ep.method ++ (" ") ++ ep.path), 1, 1,
        some { org with
          oauthCredentials := some (ApiExecutor.updateOAuthToken c td now) }) ∧
    (ApiExecutor.updateOAuthToken c td now).accessToken =
      some td.access_token := by
  have hvalid : ApiExecutor.isTokenValid org now = false := by
    simp [ApiExecutor.isTokenValid, hcred, htok, hexp]
    omega
  constructor
  · simp [ApiExecutor.executeApiCall, ApiExecutor.executeApiCallInner,
      ApiExecutor.getOAuthToken, ApiExecutor.refreshOAuthToken,
      hcred, htok, hvalid, hrt, hru, hep, hbase, hcall, List.find?]
  · simp [ApiExecutor.updateOAuthToken]

/-- The expired tenant credentials used by the C9 witness. -/
def expiredCreds : ApiExecutor.OAuthCredentials :=
  { accessToken := some ("tok")
    refreshToken := some ("rtok")
    expiresAt := some 1000
    scope := none
    tokenRefreshUrl := some ("https://auth.x/refresh")
    clientId := none
    clientSecret := none }

/-- The refresh-endpoint response used by the C9 witness. -/
def freshTokenData : ApiExecutor.TokenData :=
  { access_token := ("newtok")
    refresh_token := none
    expires_in := some 3600
    scope := none }

/-- Claim C9 witness: a token that expired at t=1000, consulted at
t=2000 with a stored refresh token, is refreshed exactly once; the
refreshed credentials are persisted and the call succeeds. -/
theorem claim_C9_expired_token_refresh_then_success_witness :
    ApiExecutor.executeApiCall ("e1") []
        (some { sampleOrg with oauthCredentials := some expiredCreds })
        (some [sampleEndpoint]) 2000 (some freshTokenData)
        (fun _ => .ok 200 (.obj)) =
      (.success 200 (.obj) (("GET") ++ (" ") ++ ("/orders")), 1, 1,
        some { sampleOrg with
          oauthCredentials :=
            some (ApiExecutor.updateOAuthToken expiredCreds
              freshTokenData 2000) }) ∧
    (ApiExecutor.updateOAuthToken expiredCreds
        freshTokenData 2000).accessToken = some ("newtok") :=
  claim_C9_expired_token_refresh_then_success
    { sampleOrg with oauthCredentials := some expiredCreds }
    expiredCreds ("tok") ("rtok") ("https://auth.x/refresh") 1000 2000
    freshTokenData sampleEndpoint ("e1") ("https://api.x") [] 200 (.obj)
    (fun _ => .ok 200 (.obj)) rfl rfl rfl (by decide) rfl rfl rfl rfl rfl

namespace RagOrchestration

/-- The structured decision parsed from the JSON of the reasoning model
(src/backend/services/ragOrchestrationService.js lines 306-317). -/
structure Decision where
  call_api : Bool
  endpoint_id : Option String
  parameters : List (String × String)
  missing_parameters : List String
  clarification_question : Option String
  confidence : ℚ
  reasoning : String
  deriving Repr, DecidableEq

/-- Outcomes of the external calls `handleDecision` can make: the
visitor email read from the conversation, the result of
`parameterResolverService.tryResolveUserId` when it is invoked (its
vector-search, reasoning and resolver-API internals are external calls;
`none` means resolution failed, which that service signals by returning
`null` instead of raising), and the result of
`apiExecutorService.executeApiCall` when it is invoked. -/
structure DecisionCtx where
  email : Option String
  resolveUserId : Option String
  execOutcome : ApiExecutor.ExecOutcome

/-- src/backend/services/ragOrchestrationService.js line 19:
`this.confidenceThreshold = 0.8`. -/
def confidenceThreshold : ℚ := 8 / 10

/-- src/backend/services/ragOrchestrationService.js line 20:
`this.maxClarificationAttempts = 2`. -/
def maxClarificationAttempts : Nat := 2

/-- JS object key assignment `decision.parameters.userId = v` on the
association-list view of the parameters object. -/
def setParam (ps : List (String × String)) (k v : String) :
    List (String × String) :=
  (k, v) :: ps.filter (fun kv => kv.1 != k)

/-- src/backend/services/ragOrchestrationService.js lines 406-418,
`formatApiResponse`: falsy data gives the empty string, an array gives a
count summary, another object a fixed phrase, and a primitive is
stringified. -/
def formatApiResponse : ApiExecutor.JsonData → String
  | .null => ("")
  | .arr n => ("Found ") ++ toString n ++ (" result(s).")
  | .obj => ("Here\x27s what I found.")
  | .str s => s
  | .num n => if n = 0 then ("") else toString n

/-- Case-1 reply of `handleDecision`
(src/backend/services/ragOrchestrationService.js line 335). -/
def questionReply : String :=
  "I understand you\x27re asking a question. How can I help you with that?"

/-- Case-5 generic fallback of `handleDecision`
(src/backend/services/ragOrchestrationService.js line 400). -/
def rephraseFallback : String :=
  "I\x27m having trouble understanding exactly what you need. Could you try rephrasing your request more specifically?"

/-- Fallback phrasing when parameters stay missing and the decision has
no clarification question
(src/backend/services/ragOrchestrationService.js line 367). -/
def genericMissingAsk (missing : List String) : String :=
  ("I can help with that, but I need a bit more info. Could you provide your ")
    ++ String.intercalate (" and ") missing ++ ("?")

/-- Fallback phrasing of the low-confidence clarification
(src/backend/services/ragOrchestrationService.js line 395). -/
def lowConfidenceAsk (reasoning : String) : String :=
  ("I think you want to ") ++ reasoning
    ++ (", but I\x27m not entirely sure. Can you please clarify?")

/-- src/backend/services/ragOrchestrationService.js lines 343-362, the
auto-resolution step of case 2: only a missing `userId` is resolvable,
only when the conversation has a visitor email; on success the resolved
value is added to the parameters and removed from the missing list. -/
def autoResolveUserId (decision : Decision) (ctx : DecisionCtx) :
    Decision :=
  if decision.missing_parameters.contains ("userId") then
    match ctx.email with
    | some _ =>
      match ctx.resolveUserId with
      | some uid =>
        { decision with
          parameters := setParam decision.parameters ("userId") uid
          missing_parameters :=
            decision.missing_parameters.filter (fun p => p != ("userId")) }
      | none => decision
    | none => decision
  else decision

/-- src/backend/services/ragOrchestrationService.js lines 331-401,
`handleDecision`.  Result components: the reply text, the value of the
clarification counter after the turn, and how many times
`apiExecutorService.executeApiCall` ran.  Case 1: no API call wanted —
reset and answer conversationally.  Case 2: missing parameters — try
auto-resolution; if parameters remain missing, increment the counter and
ask.  Case 3: all parameters present and confidence at or above the
threshold — reset and execute.  Case 4: low confidence with attempts
remaining — increment and ask.  Case 5: attempts exhausted — reset and
return the generic fallback. -/
def handleDecision (decision : Decision) (clarificationAttempts : Nat)
    (ctx : DecisionCtx) : String × Nat × Nat :=
  if !decision.call_api then (questionReply, 0, 0)
  else
    let d2 := if decision.missing_parameters.isEmpty then decision
      else autoResolveUserId decision ctx
    if !d2.missing_parameters.isEmpty then
      (d2.clarification_question.getD
          (genericMissingAsk d2.missing_parameters),
        clarificationAttempts + 1, 0)
    else if confidenceThreshold ≤ d2.confidence then
      match ctx.execOutcome with
      | .success _ data endpoint =>
        (("Great! I executed ") ++ endpoint ++ (" successfully. ")
          ++ formatApiResponse data, 0, 1)
      | .failure _ message => (message, 0, 1)
    else if clarificationAttempts < maxClarificationAttempts then
      (d2.clarification_question.getD (lowConfidenceAsk d2.reasoning),
        clarificationAttempts + 1, 0)
    else
      (rephraseFallback, 0, 0)

end RagOrchestration

/-- Helper: auto-resolution only rewrites parameters and the missing
list; question, confidence and reasoning are untouched. -/
theorem autoResolveUserId_preserves (d : RagOrchestration.Decision)
    (ctx : RagOrchestration.DecisionCtx) :
    (RagOrchestration.autoResolveUserId d ctx).clarification_question =
        d.clarification_question ∧
    (RagOrchestration.autoResolveUserId d ctx).confidence = d.confidence ∧
    (RagOrchestration.autoResolveUserId d ctx).reasoning = d.reasoning ∧
    (RagOrchestration.autoResolveUserId d ctx).call_api = d.call_api := by
  unfold RagOrchestration.autoResolveUserId
  (repeat' split) <;> simp

/-- Helper: a turn whose decision wants an API call, has missing
parameters, and whose auto-resolution clears all of them, reduces to the
confidence gate (cases 3-5). -/
theorem handleDecision_after_full_resolution
    (d : RagOrchestration.Decision) (attempts : Nat)
    (ctx : RagOrchestration.DecisionCtx)
    (hcall : d.call_api = true)
    (hmiss : d.missing_parameters ≠ [])
    (hres : (RagOrchestration.autoResolveUserId d ctx).missing_parameters
      = []) :
    RagOrchestration.handleDecision d attempts ctx =
      (if RagOrchestration.confidenceThreshold ≤ d.confidence then
        (match ctx.execOutcome with
          | .success _ data endpoint =>
            (("Great! I executed ") ++ endpoint ++ (" successfully. ")
              ++ RagOrchestration.formatApiResponse data, 0, 1)
          | .failure _ message => (message, 0, 1))
      else if attempts < RagOrchestration.maxClarificationAttempts then
        (d.clarification_question.getD
          (RagOrchestration.lowConfidenceAsk d.reasoning), attempts + 1, 0)
      else (RagOrchestration.rephraseFallback, 0, 0)) := by
  have hne : d.missing_parameters.isEmpty = false := by
    cases h : d.missing_parameters
    · exact absurd h hmiss
    · rfl
  obtain ⟨hq, hc, hr, _⟩ := autoResolveUserId_preserves d ctx
  simp only [RagOrchestration.handleDecision, hcall, hne, hres, hq, hc, hr,
    Bool.not_true, Bool.false_eq_true, if_false, Bool.ite_eq_false_distrib,
    List.isEmpty_nil, Bool.not_false, if_true]

/-- Helper: a turn whose decision wants an API call and still has
missing parameters after auto-resolution increments the clarification
counter and asks, executing nothing. -/
theorem handleDecision_still_missing
    (d : RagOrchestration.Decision) (attempts : Nat)
    (ctx : RagOrchestration.DecisionCtx)
    (hcall : d.call_api = true)
    (hmiss : d.missing_parameters ≠ [])
    (hres : (RagOrchestration.autoResolveUserId d ctx).missing_parameters
      ≠ []) :
    RagOrchestration.handleDecision d attempts ctx =
      (d.clarification_question.getD
          (RagOrchestration.genericMissingAsk
            (RagOrchestration.autoResolveUserId d ctx).missing_parameters),
        attempts + 1, 0) := by
  have hne : d.missing_parameters.isEmpty = false := by
    cases h : d.missing_parameters
    · exact absurd h hmiss
    · rfl
  have hne2 : (RagOrchestration.autoResolveUserId d
      ctx).missing_parameters.isEmpty = false := by
    cases h : (RagOrchestration.autoResolveUserId d ctx).missing_parameters
    · exact absurd h hres
    · rfl
  obtain ⟨hq, _, _, _⟩ := autoResolveUserId_preserves d ctx
  simp only [RagOrchestration.handleDecision, hcall, hne, hne2, hq,
    Bool.not_true, Bool.false_eq_true, if_false, Bool.not_false, if_true]

/-- The concrete decision of the C5 counterexample: act intended, only
`userId` missing, confidence 0.5 (below the 0.8 threshold). -/
def c5Decision : RagOrchestration.Decision :=
  { call_api := true
    endpoint_id := some ("e1")
    parameters := []
    missing_parameters := [("userId")]
    clarification_question := some ("What is your user id?")
    confidence := 1 / 2
    reasoning := ("create a support ticket") }

/-- The concrete resolution context of the C5 counterexample: the
visitor email is known and the resolver succeeds with u42; the executor
would succeed if invoked. -/
def c5Ctx : RagOrchestration.DecisionCtx :=
  { email := some ("v@x.io")
    resolveUserId := some ("u42")
    execOutcome := .success 200 (.obj) (("GET /orders")) }

/-- Claim C5 (where the code diverges from it): on the concrete decision
whose only missing parameter is auto-resolved, the engine does NOT
proceed to execute — it runs zero action calls and returns the
clarification question (incrementing the counter), because the 0.5
confidence is below the threshold; raising the confidence to 0.9 on the
same resolution context makes the identical turn execute, showing that
auto-resolution did supply all missing values and the confidence gate
alone blocked execution. -/
theorem claim_C5_resolved_but_not_executed_counterexample :
    (RagOrchestration.handleDecision c5Decision 0 c5Ctx).2.2 = 0 ∧
    RagOrchestration.handleDecision c5Decision 0 c5Ctx =
      (("What is your user id?"), 1, 0) ∧
    RagOrchestration.handleDecision
        { c5Decision with confidence := 9 / 10 } 0 c5Ctx =
      (("Great! I executed GET /orders successfully. Here\x27s what I found."),
        0, 1) := by
  have hres : (RagOrchestration.autoResolveUserId c5Decision
      c5Ctx).missing_parameters = [] := by
    simp [RagOrchestration.autoResolveUserId, c5Decision, c5Ctx]
  have hres9 : (RagOrchestration.autoResolveUserId
      { c5Decision with confidence := 9 / 10 }
      c5Ctx).missing_parameters = [] := by
    simp [RagOrchestration.autoResolveUserId, c5Decision, c5Ctx]
  have hlow : ¬ (RagOrchestration.confidenceThreshold ≤
      c5Decision.confidence) := by
    norm_num [RagOrchestration.confidenceThreshold, c5Decision]
  have hhigh : RagOrchestration.confidenceThreshold ≤
      ({ c5Decision with confidence := 9 / 10 }
        : RagOrchestration.Decision).confidence := by
    norm_num [RagOrchestration.confidenceThreshold, c5Decision]
  have h1 := handleDecision_after_full_resolution c5Decision 0 c5Ctx
    rfl (by simp [c5Decision]) hres
  have h2 := handleDecision_after_full_resolution
    { c5Decision with confidence := 9 / 10 } 0 c5Ctx
    rfl (by simp [c5Decision]) hres9
  rw [if_neg hlow] at h1
  rw [if_pos hhigh] at h2
  refine ⟨?_, ?_, ?_⟩
  · rw [h1]; simp [c5Decision, RagOrchestration.maxClarificationAttempts]
  · rw [h1]; simp [c5Decision, RagOrchestration.maxClarificationAttempts]
  · rw [h2]; simp [c5Ctx, RagOrchestration.formatApiResponse]

/-- Claim C5 as amended: for every decision with missing required
parameters, if auto-resolution supplies values for all of them the
engine falls through to the confidence gate — it executes the chosen
endpoint (exactly one action call, counter reset) when confidence is at
least 0.8, and otherwise runs no action call and follows the
low-confidence clarification path; if parameters remain missing after
auto-resolution, it increments the clarification counter and returns the
clarification question of the decision or the generic fallback
phrasing. -/
theorem claim_C5_amended_resolution_then_confidence_gate :
    (∀ (d : RagOrchestration.Decision) (attempts : Nat)
      (ctx : RagOrchestration.DecisionCtx),
      d.call_api = true →
      d.missing_parameters ≠ [] →
      (RagOrchestration.autoResolveUserId d ctx).missing_parameters = [] →
      ((RagOrchestration.confidenceThreshold ≤ d.confidence →
          (RagOrchestration.handleDecision d attempts ctx).2.2 = 1 ∧
          (RagOrchestration.handleDecision d attempts ctx).2.1 = 0) ∧
        (d.confidence < RagOrchestration.confidenceThreshold →
          (RagOrchestration.handleDecision d attempts ctx).2.2 = 0 ∧
          (RagOrchestration.handleDecision d attempts ctx).1 =
            (if attempts < RagOrchestration.maxClarificationAttempts then
              d.clarification_question.getD
                (RagOrchestration.lowConfidenceAsk d.reasoning)
            else RagOrchestration.rephraseFallback)))) ∧
    (∀ (d : RagOrchestration.Decision) (attempts : Nat)
      (ctx : RagOrchestration.DecisionCtx),
      d.call_api = true →
      d.missing_parameters ≠ [] →
      (RagOrchestration.autoResolveUserId d ctx).missing_parameters ≠ [] →
      RagOrchestration.handleDecision d attempts ctx =
        (d.clarification_question.getD
            (RagOrchestration.genericMissingAsk
              (RagOrchestration.autoResolveUserId d
                ctx).missing_parameters),
          attempts + 1, 0)) := by
  constructor
  · intro d attempts ctx hcall hmiss hres
    have h := handleDecision_after_full_resolution d attempts ctx hcall
      hmiss hres
    constructor
    · intro hconf
      rw [h, if_pos hconf]
      cases ctx.execOutcome <;> simp
    · intro hconf
      rw [h, if_neg (not_le.mpr hconf)]
      by_cases hatt : attempts < RagOrchestration.maxClarificationAttempts
      · simp [hatt]
      · simp [hatt]
  · intro d attempts ctx hcall hmiss hres
    exact handleDecision_still_missing d attempts ctx hcall hmiss hres

/-- Claim C5 amended witness: the low-confidence resolved turn runs zero
calls and asks the clarification question; the remaining-missing variant
(no email known) increments the counter and asks. -/
theorem claim_C5_amended_resolution_then_confidence_gate_witness :
    ((RagOrchestration.handleDecision c5Decision 0 c5Ctx).2.2 = 0 ∧
      (RagOrchestration.handleDecision c5Decision 0 c5Ctx).1 =
        ("What is your user id?")) ∧
    RagOrchestration.handleDecision c5Decision 0
        { c5Ctx with email := none } =
      (("What is your user id?"), 1, 0) := by
  have h1 := (claim_C5_amended_resolution_then_confidence_gate.1
    c5Decision 0 c5Ctx rfl (by simp [c5Decision])
    (by simp [RagOrchestration.autoResolveUserId, c5Decision, c5Ctx])).2
    (by norm_num [RagOrchestration.confidenceThreshold, c5Decision])
  have h2 := claim_C5_amended_resolution_then_confidence_gate.2
    c5Decision 0 { c5Ctx with email := none } rfl (by simp [c5Decision])
    (by simp [RagOrchestration.autoResolveUserId, c5Decision, c5Ctx])
  refine ⟨⟨h1.1, ?_⟩, ?_⟩
  · rw [h1.2]; simp [c5Decision, RagOrchestration.maxClarificationAttempts]
  · rw [h2]; simp [c5Decision, RagOrchestration.autoResolveUserId, c5Ctx]

/-- Claim C6: three consecutive low-confidence, act-intended,
nothing-missing turns starting from a counter of 0: the first two return
the clarification question of the decision and raise the counter to 1 then 2
(no execution), the third returns the generic rephrase fallback and
resets the counter to 0. -/
theorem claim_C6_three_low_confidence_turns
    (d : RagOrchestration.Decision) (ctx : RagOrchestration.DecisionCtx)
    (q : String)
    (hcall : d.call_api = true)
    (hmiss : d.missing_parameters = [])
    (hconf : d.confidence < RagOrchestration.confidenceThreshold)
    (hq : d.clarification_question = some q) :
    RagOrchestration.handleDecision d 0 ctx = (q, 1, 0) ∧
    RagOrchestration.handleDecision d 1 ctx = (q, 2, 0) ∧
    RagOrchestration.handleDecision d 2 ctx =
      (RagOrchestration.rephraseFallback, 0, 0) := by
  have hnot : ¬ (RagOrchestration.confidenceThreshold ≤ d.confidence) :=
    not_le.mpr hconf
  refine ⟨?_, ?_, ?_⟩ <;>
    simp [RagOrchestration.handleDecision, hcall, hmiss, hq, hnot,
      RagOrchestration.maxClarificationAttempts]

/-- The concrete vague decision of the C6 witness. -/
def c6Decision : RagOrchestration.Decision :=
  { call_api := true
    endpoint_id := some ("e2")
    parameters := []
    missing_parameters := []
    clarification_question := some ("Could you clarify what you need?")
    confidence := 1 / 2
    reasoning := ("unclear request") }

/-- The concrete context of the C6 witness (never consulted on these
turns). -/
def c6Ctx : RagOrchestration.DecisionCtx :=
  { email := none
    resolveUserId := none
    execOutcome := .failure ("EXECUTION_ERROR") ("") }

/-- Claim C6 witness: the three turns on the concrete vague decision. -/
theorem claim_C6_three_low_confidence_turns_witness :
    RagOrchestration.handleDecision c6Decision 0 c6Ctx =
      (("Could you clarify what you need?"), 1, 0) ∧
    RagOrchestration.handleDecision c6Decision 1 c6Ctx =
      (("Could you clarify what you need?"), 2, 0) ∧
    RagOrchestration.handleDecision c6Decision 2 c6Ctx =
      (RagOrchestration.rephraseFallback, 0, 0) :=
  claim_C6_three_low_confidence_turns c6Decision c6Ctx
    ("Could you clarify what you need?") rfl rfl
    (by norm_num [RagOrchestration.confidenceThreshold, c6Decision]) rfl

end Chat2Act
